import Mathlib

/-!
# Verification of the ProfessionalCreditScorer experience-metrics core

Shallow embedding of the scoring core of `score_algorithm.py`:
the duration-string parser (`_parse_duration_string`), the per-batch
experience metrics (`calculate_experience_metrics` and its helpers), and
the batch aggregator (`_aggregate_batch_results`).

Python floats are modelled as exact rationals (`ℚ`); Python's `round(x, n)`
is modelled as round-half-to-even at `n` decimal digits, which agrees with
CPython on every value arising below (the only ties that occur are at
values exactly representable in binary, where CPython also rounds the tie
to even).  Python exceptions are modelled with `Except`; a `try/except`
wrapper catches them and substitutes the fallback value, exactly as in the
source.  The free-text report fields (`analysis_scope`,
`detailed_analysis`, `calculation_method`) carry no data used anywhere and
are omitted from the embedded result records.
-/

set_option autoImplicit false

namespace CreditScorer

/-! ## The duration parser (`_parse_duration_string`) -/

/-- ASCII whitespace: the characters matched by Python's `\s` and stripped
by `str.strip()` on ASCII input. -/
def pySpace (c : Char) : Bool :=
  c = ' ' || c = '\t' || c = '\n' || c = '\r' || c = '\x0b' || c = '\x0c'

/-- `str.strip()`: drop leading and trailing whitespace. -/
def pyStrip (s : List Char) : List Char :=
  ((s.dropWhile pySpace).reverse.dropWhile pySpace).reverse

/-- Numeric value of a digit run (the `float(match.group(1))` conversion;
Python ints are unbounded, and the values here are exact). -/
def digitsToNat (ds : List Char) : Nat :=
  ds.foldl (fun n c => 10 * n + (c.toNat - 48)) 0

/-- One attempt of the pattern `(\d+)\s*unit` anchored at the start of `s`.
For this pattern a successful attempt must consume the maximal digit run
and then the maximal whitespace run (the unit words start with a letter,
which is neither a digit nor whitespace, so regex backtracking can never
produce a shorter successful match at the same start position); greedy
matching without backtracking is therefore exact. -/
def matchNumUnit (unit : List Char) (s : List Char) : Option Nat :=
  let digits := s.takeWhile Char.isDigit
  if digits.isEmpty then none
  else
    let rest := (s.dropWhile Char.isDigit).dropWhile pySpace
    if List.isPrefixOf unit rest then some (digitsToNat digits) else none

/-- `re.search(r'(\d+)\s*unit', s)`: try the anchored match at each start
position from the left and return the first captured integer. -/
def searchNumUnit (unit : List Char) : List Char → Option Nat
  | [] => none
  | c :: rest =>
    match matchNumUnit unit (c :: rest) with
    | some n => some n
    | none => searchNumUnit unit rest

/-- The literal `year` of the regex `(\d+)\s*year` (plural forms also
match because only this prefix of the remaining text is required). -/
def yearTok : List Char := ['y', 'e', 'a', 'r']

/-- The literal `month` of the regex `(\d+)\s*month`. -/
def monthTok : List Char := ['m', 'o', 'n', 't', 'h']

/-- Round a rational to the nearest integer, ties to even (CPython's
rounding rule for `round`). -/
def rhe (q : ℚ) : ℤ :=
  if q - ⌊q⌋ = 1 / 2 then (if ⌊q⌋ % 2 = 0 then ⌊q⌋ else ⌊q⌋ + 1) else round q

/-- Python `round(x, 2)` on exact rationals. -/
def round2 (q : ℚ) : ℚ := (rhe (q * 100) : ℚ) / 100

/-- Python `round(x, 3)` on exact rationals. -/
def round3 (q : ℚ) : ℚ := (rhe (q * 1000) : ℚ) / 1000

/-- An integer multiple of 1/100: exactly the values `round2` leaves
unchanged.  Every parsed duration, and hence every per-record total, is
one. -/
def IsCentile (q : ℚ) : Prop := ∃ k : ℤ, (k : ℚ) = q * 100

/-- `duration.lower().strip()` as a character list. -/
def normalized (duration : String) : List Char :=
  pyStrip (duration.data.map Char.toLower)

/-- The integer captured by `re.search(r'(\d+)\s*year', …)`, defaulting
to 0 when there is no match. -/
def yearsExtract (duration : String) : ℕ :=
  (searchNumUnit yearTok (normalized duration)).getD 0

/-- The integer captured by `re.search(r'(\d+)\s*month', …)`, defaulting
to 0 when there is no match. -/
def monthsExtract (duration : String) : ℕ :=
  (searchNumUnit monthTok (normalized duration)).getD 0

/-- `_parse_duration_string`: lowercase and strip the input, extract the
year and month counts, and return `round(years + months/12.0, 2)`.
The `try/except Exception` wrapper in the source can only fire on a
non-string argument, which the typed embedding excludes, so the function
is total here. -/
def parse_duration_string (duration : String) : ℚ :=
  round2 ((yearsExtract duration : ℚ) + (monthsExtract duration : ℚ) / 12)

/-! ## Data model

A profile record as the metrics code reads it: `prof.get('experience', [])`
and, per entry, `exp.get('position', '')`, `exp.get('companyName', '')`,
`exp.get('duration', '')`.  A missing key behaves exactly like its default,
so the embedding uses total fields with those defaults. -/

/-- One employment stint of a profile record. -/
structure ExperienceEntry where
  position : String
  companyName : String
  duration : String
deriving DecidableEq

/-- One professional's record, reduced to the fields the core reads. -/
structure ProfileRecord where
  experience : List ExperienceEntry
deriving DecidableEq

/-- `_calculate_years_from_experience`: sum the parsed durations of all
entries whose duration string is non-empty (Python truthiness of `str`). -/
def calculate_years_from_experience (experience : List ExperienceEntry) : ℚ :=
  experience.foldl
    (fun total e =>
      if e.duration = "" then total else total + parse_duration_string e.duration)
    0

/-! ## Career progression (`_calculate_career_progression_rate`) -/

/-- Python's substring test `needle in hay` on character lists. -/
def listContains (needle : List Char) : List Char → Bool
  | [] => List.isPrefixOf needle []
  | c :: rest => List.isPrefixOf needle (c :: rest) || listContains needle rest

/-- `[exp.get('position', '').lower() for exp in experience]`. -/
def jobTitles (p : ProfileRecord) : List (List Char) :=
  p.experience.map (fun e => e.position.data.map Char.toLower)

/-- The `senior_keywords` list of the source. -/
def senior_keywords : List (List Char) :=
  [r"senior", r"lead", r"principal", r"director", r"manager", r"head",
   r"chief", r"vp", r"c-level"].map String.data

/-- The `junior_keywords` list of the source. -/
def junior_keywords : List (List Char) :=
  [r"junior", r"assistant", r"associate", r"entry", r"intern"].map String.data

/-- Patterns 1-4 of the source: some title before the last contains `lo`
and some title after the first contains `hi`. -/
def pairPattern (lo hi : List Char) (titles : List (List Char)) : Bool :=
  titles.dropLast.any (fun t => listContains lo t) &&
    (titles.drop 1).any (fun t => listContains hi t)

/-- The per-record progression test of the source: any of the five
patterns sets `progression_found`.  Pattern 5 reads `job_titles[0]` and
`job_titles[-1]`; it is only evaluated when the record has at least two
entries, so the defaults of `headD`/`getLastD` are never used. -/
def progression_found (p : ProfileRecord) : Bool :=
  let titles := jobTitles p
  pairPattern (r"junior").data (r"senior").data titles ||
  pairPattern (r"assistant").data (r"manager").data titles ||
  pairPattern (r"developer").data (r"lead").data titles ||
  pairPattern (r"analyst").data (r"director").data titles ||
  (junior_keywords.any (fun kw => listContains kw (titles.headD [])) &&
    senior_keywords.any (fun kw => listContains kw (titles.getLastD [])))

/-- The accumulation loop of `_calculate_career_progression_rate`:
`(progression_indicators, total_professionals)`. -/
def progressionLoop : List ProfileRecord → ℕ × ℕ → ℕ × ℕ
  | [], acc => acc
  | p :: rest, (ind, tot) =>
    if 2 ≤ p.experience.length then
      progressionLoop rest (if progression_found p then ind + 1 else ind, tot + 1)
    else
      progressionLoop rest (ind, tot)

/-- `_calculate_career_progression_rate`.  Its `try/except` wrapper is
dead in the embedding: every step of the loop is total. -/
def calculate_career_progression_rate (professionals : List ProfileRecord) : ℚ :=
  let r := progressionLoop professionals (0, 0)
  if r.2 = 0 then 0 else (r.1 : ℚ) / (r.2 : ℚ)

/-! ## Industry stability (`_calculate_industry_stability_score`)

The source computes `unique_companies = len(set(companies))` (an `int`)
and then tests `len(unique_companies) <= 2`; `len` of an `int` raises
`TypeError`.  The loop is therefore modelled in `Except`: reaching
indicator 3 raises, and the function's blanket `except` turns any raise
into `0.0`. -/

/-- The per-record loop of `_calculate_industry_stability_score` over
`(stability_indicators, total_professionals)`.  Indicators 1 and 2 are
computed (bound here to make the control flow of the source visible) and
then discarded when the `TypeError` of indicator 3 fires. -/
def stabilityLoop : List ProfileRecord → ℕ × ℕ → Except Unit (ℕ × ℕ)
  | [], acc => Except.ok acc
  | p :: rest, (ind, tot) =>
    if 1 ≤ p.experience.length then
      let companies :=
        (p.experience.map (fun e => e.companyName)).filter (fun c => c ≠ "")
      if companies.length = 0 then
        stabilityLoop rest (ind, tot + 1)
      else
        let avg_tenure :=
          calculate_years_from_experience p.experience / (p.experience.length : ℚ)
        let _ind1 := if 2 ≤ avg_tenure then ind + 1 else ind
        let _ind2 :=
          if companies.dedup.length < companies.length then _ind1 + 1 else _ind1
        Except.error ()
    else
      stabilityLoop rest (ind, tot)

/-- `_calculate_industry_stability_score`: run the loop; the blanket
`except` maps the raise to `0.0`; otherwise normalize by
`total_professionals * 4` (returning `0.0` when no record qualified). -/
def calculate_industry_stability_score (professionals : List ProfileRecord) : ℚ :=
  match stabilityLoop professionals (0, 0) with
  | Except.error _ => 0
  | Except.ok (ind, tot) => if tot = 0 then 0 else (ind : ℚ) / ((tot : ℚ) * 4)

/-! ## Average job tenure (`_calculate_average_job_tenure`) -/

/-- The inner-loop body: skip empty duration strings, then add the parsed
years and count the job only when the parse is strictly positive. -/
def tenureStep (acc : ℚ × ℕ) (e : ExperienceEntry) : ℚ × ℕ :=
  if e.duration = "" then acc
  else
    let years := parse_duration_string e.duration
    if 0 < years then (acc.1 + years, acc.2 + 1) else acc

/-- The accumulation loop of `_calculate_average_job_tenure`:
`(total_tenure, total_jobs)`. -/
def tenureLoop : List ProfileRecord → ℚ × ℕ → ℚ × ℕ
  | [], acc => acc
  | p :: rest, acc => tenureLoop rest (p.experience.foldl tenureStep acc)

/-- `_calculate_average_job_tenure`.  Total in the embedding, so its
`try/except` wrapper is dead. -/
def calculate_average_job_tenure (professionals : List ProfileRecord) : ℚ :=
  let r := tenureLoop professionals (0, 0)
  if r.2 = 0 then 0 else r.1 / (r.2 : ℚ)

/-! ## Per-batch metrics (`calculate_experience_metrics`) -/

/-- The `experience_years` list built by the main loop: the total parsed
years of each record with a non-empty experience list and a strictly
positive total, in input order. -/
def experience_years (professionals : List ProfileRecord) : List ℚ :=
  professionals.filterMap
    (fun p =>
      if p.experience ≠ [] ∧ 0 < calculate_years_from_experience p.experience
      then some (calculate_years_from_experience p.experience)
      else none)

/-- Insert into a sorted list (ascending). -/
def insertSorted (x : ℚ) : List ℚ → List ℚ
  | [] => [x]
  | y :: ys => if x ≤ y then x :: y :: ys else y :: insertSorted x ys

/-- `list.sort()` ascending.  Equal rationals are indistinguishable, so
stability is irrelevant and insertion sort is an exact model. -/
def sortQ (l : List ℚ) : List ℚ := l.foldr insertSorted []

/-- Python `min` over a list (`none` on an empty list, where Python would
raise; the source only applies it to non-empty lists). -/
def listMin : List ℚ → Option ℚ
  | [] => none
  | x :: xs => some (xs.foldl min x)

/-- Python `max` over a list. -/
def listMax : List ℚ → Option ℚ
  | [] => none
  | x :: xs => some (xs.foldl max x)

/-- The dictionary returned by `calculate_experience_metrics`.  The
zero-data early return omits the keys `median_years`, `min_years` and
`max_years`; those fields are `Option`s, `none` meaning "key absent". -/
structure ExperienceMetrics where
  average_years : ℚ
  median_years : Option ℚ
  total_professionals : ℕ
  professionals_with_experience : ℕ
  min_years : Option ℚ
  max_years : Option ℚ
  career_progression_rate : ℚ
  industry_stability_score : ℚ
  average_job_tenure : ℚ

/-- `calculate_experience_metrics`.  The loop collects `experience_years`
(with `total_experience` its running sum and
`professionals_with_experience` its running length); if no record
qualified the zero-data dictionary is returned, otherwise the mean,
the sorted-list median at index `len // 2`, min/max, and the three
derived rates.  Every callee is total, so the `except` wrapper is dead. -/
def calculate_experience_metrics (professionals : List ProfileRecord) : ExperienceMetrics :=
  let ys := experience_years professionals
  if ys.length = 0 then
    { average_years := 0
      median_years := none
      total_professionals := professionals.length
      professionals_with_experience := 0
      min_years := none
      max_years := none
      career_progression_rate := 0
      industry_stability_score := 0
      average_job_tenure := 0 }
  else
    let avg_years := ys.sum / (ys.length : ℚ)
    let sorted := sortQ ys
    let median_years := sorted.getD (ys.length / 2) 0
    { average_years := round2 avg_years
      median_years := some (round2 median_years)
      total_professionals := professionals.length
      professionals_with_experience := ys.length
      min_years := listMin ys
      max_years := listMax ys
      career_progression_rate := round3 (calculate_career_progression_rate professionals)
      industry_stability_score := round3 (calculate_industry_stability_score professionals)
      average_job_tenure := round2 (calculate_average_job_tenure professionals) }

/-! ## Batch aggregation (`_aggregate_batch_results`)

A batch result as the aggregator reads it: nested `get` calls with
defaults `{}` / `0`, so the embedding uses total fields (a missing key
behaves exactly like its default value). -/

/-- The `analysis_summary` sub-dictionary of a batch result. -/
structure BatchSummary where
  total_professionals_analyzed : ℕ
  professionals_with_experience_data : ℕ

/-- The `career_insights` sub-dictionary of a batch result. -/
structure CareerInsights where
  average_job_tenure : ℚ
  career_progression_rate : ℚ
  industry_stability_score : ℚ

/-- The `batch_info` sub-dictionary of a batch result. -/
structure BatchInfo where
  batch_number : ℕ
  professionals_in_batch : ℕ

/-- One per-batch result fed to the aggregator. -/
structure BatchResult where
  analysis_summary : BatchSummary
  career_insights : CareerInsights
  batch_info : BatchInfo

/-- The collection loop for one career-insight key: append the batch's
value whenever it is strictly greater than 0. -/
def collectPos (f : BatchResult → ℚ) : List BatchResult → List ℚ → List ℚ
  | [], acc => acc
  | r :: rest, acc => collectPos f rest (if 0 < f r then acc ++ [f r] else acc)

/-- `sum(l) / len(l) if l else 0.0`. -/
def meanOrZero (l : List ℚ) : ℚ := if l = [] then 0 else l.sum / (l.length : ℚ)

/-- The summation loop over batches for one integer summary key. -/
def sumLoop (f : BatchResult → ℕ) : List BatchResult → ℕ → ℕ
  | [], acc => acc
  | r :: rest, acc => sumLoop f rest (acc + f r)

/-- The aggregated dictionary built by `_aggregate_batch_results` (its
free-text fields omitted; the `experience_distribution` block is emitted
as constant zeros by the source). -/
structure ConsolidatedReport where
  total_professionals_analyzed : ℕ
  professionals_with_experience_data : ℕ
  total_batches_processed : ℕ
  entry_level_0_2_years : ℕ
  mid_level_3_7_years : ℕ
  senior_level_8_15_years : ℕ
  executive_level_15_plus_years : ℕ
  average_job_tenure : ℚ
  career_progression_rate : ℚ
  industry_stability_score : ℚ
  batch_details : List BatchInfo

/-- `_aggregate_batch_results` (the unused `total_professionals` argument
of the source only feeds an omitted free-text field).  Every step is
total, so the `except` fallback to the empty analysis is dead. -/
def aggregate_batch_results (batch_results : List BatchResult) : ConsolidatedReport :=
  { total_professionals_analyzed :=
      sumLoop (fun r => r.analysis_summary.total_professionals_analyzed) batch_results 0
    professionals_with_experience_data :=
      sumLoop (fun r => r.analysis_summary.professionals_with_experience_data) batch_results 0
    total_batches_processed := batch_results.length
    entry_level_0_2_years := 0
    mid_level_3_7_years := 0
    senior_level_8_15_years := 0
    executive_level_15_plus_years := 0
    average_job_tenure :=
      round2 (meanOrZero (collectPos (fun r => r.career_insights.average_job_tenure) batch_results []))
    career_progression_rate :=
      round3 (meanOrZero (collectPos (fun r => r.career_insights.career_progression_rate) batch_results []))
    industry_stability_score :=
      round3 (meanOrZero (collectPos (fun r => r.career_insights.industry_stability_score) batch_results []))
    batch_details :=
      batch_results.map (fun r => r.batch_info) }

/-! ## Specification-side formulas

These definitions follow the words of the specification (not the source);
the theorems below compare the source-derived functions against them. -/

/-- Sum of the parsed durations of every experience entry across all
records (the numerator of the spec's average-job-tenure formula). -/
def totalParsedDuration (professionals : List ProfileRecord) : ℚ :=
  (professionals.map
    (fun p => (p.experience.map (fun e => parse_duration_string e.duration)).sum)).sum

/-- Number of experience entries, across all records, with a non-empty
duration string (the denominator the spec words claim). -/
def nonemptyDurationCount (professionals : List ProfileRecord) : ℕ :=
  (professionals.map (fun p => (p.experience.filter (fun e => e.duration ≠ "")).length)).sum

/-- Number of experience entries, across all records, whose duration
parses to a strictly positive number of years (the denominator the code
actually uses). -/
def positiveDurationCount (professionals : List ProfileRecord) : ℕ :=
  (professionals.map
    (fun p => (p.experience.filter (fun e => 0 < parse_duration_string e.duration)).length)).sum

/-- The average-job-tenure formula exactly as the specification words it:
total parsed duration over all entries, divided by the number of entries
with a non-empty duration string. -/
def claimedAverageJobTenure (professionals : List ProfileRecord) : ℚ :=
  if nonemptyDurationCount professionals = 0 then 0
  else totalParsedDuration professionals / (nonemptyDurationCount professionals : ℚ)

/-- The stability points of one record under the spec's (and the source
docstring's) intended rule: up to 4 independent indicators.  Records
whose entries all have an empty company name earn nothing (the source
`continue`s before any indicator). -/
def statPoints (p : ProfileRecord) : ℕ :=
  let companies := (p.experience.map (fun e => e.companyName)).filter (fun c => c ≠ "")
  if companies = [] then 0
  else
    (if 2 ≤ calculate_years_from_experience p.experience / (p.experience.length : ℚ)
      then 1 else 0) +
    (if companies.dedup.length < companies.length then 1 else 0) +
    (if companies.dedup.length ≤ 2 then 1 else 0) +
    (if 3 / 2 ≤ parse_duration_string ((p.experience.headD ⟨r"", r"", r""⟩).duration)
      then 1 else 0)

/-- The industry-stability score as the specification describes it: the
summed points of all records with at least one experience entry, divided
by four times their number. -/
def specIndustryStabilityScore (professionals : List ProfileRecord) : ℚ :=
  let qual := professionals.filter (fun p => 1 ≤ p.experience.length)
  if qual = [] then 0
  else ((qual.map statPoints).sum : ℚ) / ((qual.length : ℚ) * 4)

/-- The progression predicate as the specification words it, at the
propositional level: one of the five seniority-advancement patterns over
the lowercased job-title sequence. -/
def SpecProgression (p : ProfileRecord) : Prop :=
  (∃ t ∈ (jobTitles p).dropLast, listContains (r"junior").data t) ∧
    (∃ t ∈ (jobTitles p).drop 1, listContains (r"senior").data t) ∨
  (∃ t ∈ (jobTitles p).dropLast, listContains (r"assistant").data t) ∧
    (∃ t ∈ (jobTitles p).drop 1, listContains (r"manager").data t) ∨
  (∃ t ∈ (jobTitles p).dropLast, listContains (r"developer").data t) ∧
    (∃ t ∈ (jobTitles p).drop 1, listContains (r"lead").data t) ∨
  (∃ t ∈ (jobTitles p).dropLast, listContains (r"analyst").data t) ∧
    (∃ t ∈ (jobTitles p).drop 1, listContains (r"director").data t) ∨
  (∃ kw ∈ junior_keywords, listContains kw ((jobTitles p).headD [])) ∧
    (∃ kw ∈ senior_keywords, listContains kw ((jobTitles p).getLastD []))

/-- The zero-data metrics dictionary the source returns when no record
has positive experience (`median_years`, `min_years`, `max_years`
absent). -/
def zeroMetrics (n : ℕ) : ExperienceMetrics :=
  { average_years := 0
    median_years := none
    total_professionals := n
    professionals_with_experience := 0
    min_years := none
    max_years := none
    career_progression_rate := 0
    industry_stability_score := 0
    average_job_tenure := 0 }

/-- The zero-valued consolidated report produced for an empty batch
list. -/
def zeroReport : ConsolidatedReport :=
  { total_professionals_analyzed := 0
    professionals_with_experience_data := 0
    total_batches_processed := 0
    entry_level_0_2_years := 0
    mid_level_3_7_years := 0
    senior_level_8_15_years := 0
    executive_level_15_plus_years := 0
    average_job_tenure := 0
    career_progression_rate := 0
    industry_stability_score := 0
    batch_details := [] }

/-! ## Concrete inputs used by the claims -/

def exDur1 : String := "2 years 3 months"
def exDur2 : String := "1 year"
def exDur3 : String := "6 months"
def exDurEmpty : String := ""
def exDurInvalid : String := "invalid"
def exDurAnd : String := "2 years and 3 months"
def exDurY1M6 : String := "1 year 6 months"
def exDurY5 : String := "5 years"
def exDurY2M6 : String := "2 years 6 months"
def exDurY3 : String := "3 years"

/-- An experience entry carrying only a duration (the other keys absent,
hence their empty-string defaults). -/
def durEntry (d : String) : ExperienceEntry :=
  { position := "", companyName := "", duration := d }

/-- The three-record example batch of the specification. -/
def exBatch : List ProfileRecord :=
  [{ experience := [durEntry exDur1, durEntry exDurY1M6] },
   { experience := [durEntry exDurY5, durEntry exDurY2M6] },
   { experience := [] }]

/-- A record with one entry at a named company: the smallest input on
which the intended stability score is positive. -/
def exStabilityRecord : ProfileRecord :=
  { experience := [{ position := "", companyName := r"Acme", duration := exDurY3 }] }

/-- A record whose two entries have a parseable and an unparseable
(non-empty) duration: separates the two tenure denominators. -/
def exTenureRecord : ProfileRecord :=
  { experience := [durEntry exDur2, durEntry exDurInvalid] }

/-- Batch result with average job tenure 2.75 and all other values 0. -/
def exBatchResultA : BatchResult :=
  { analysis_summary := { total_professionals_analyzed := 1, professionals_with_experience_data := 1 }
    career_insights := { average_job_tenure := 11 / 4, career_progression_rate := 0, industry_stability_score := 0 }
    batch_info := { batch_number := 1, professionals_in_batch := 1 } }

/-- Batch result with zero tenure (its batch had no tenure data). -/
def exBatchResultB : BatchResult :=
  { analysis_summary := { total_professionals_analyzed := 1, professionals_with_experience_data := 0 }
    career_insights := { average_job_tenure := 0, career_progression_rate := 0, industry_stability_score := 0 }
    batch_info := { batch_number := 2, professionals_in_batch := 1 } }

/-- Batch result whose tenure is `t` and whose other values are 0. -/
def tenureBatch (n : ℕ) (t : ℚ) : BatchResult :=
  { analysis_summary := { total_professionals_analyzed := 1, professionals_with_experience_data := 1 }
    career_insights := { average_job_tenure := t, career_progression_rate := 0, industry_stability_score := 0 }
    batch_info := { batch_number := n, professionals_in_batch := 1 } }

/-! ## Rounding lemmas -/

theorem rhe_int (k : ℤ) : rhe k = k := by
  unfold rhe
  rw [Int.floor_intCast]
  norm_num

theorem rhe_half (k : ℤ) : rhe ((k : ℚ) + 1 / 2) = if k % 2 = 0 then k else k + 1 := by
  unfold rhe
  have hf : ⌊(k : ℚ) + 1 / 2⌋ = k := by
    rw [add_comm, Int.floor_add_int]
    norm_num
  rw [hf]
  norm_num

theorem round2_int (q : ℚ) (k : ℤ) (h : q * 100 = (k : ℚ)) : round2 q = (k : ℚ) / 100 := by
  rw [round2, h, rhe_int]

theorem round2_half (q : ℚ) (k : ℤ) (h : q * 100 = (k : ℚ) + 1 / 2) (he : k % 2 = 0) :
    round2 q = (k : ℚ) / 100 := by
  rw [round2, h, rhe_half, if_pos he]

theorem round3_int (q : ℚ) (k : ℤ) (h : q * 1000 = (k : ℚ)) : round3 q = (k : ℚ) / 1000 := by
  rw [round3, h, rhe_int]

theorem rhe_nonneg (q : ℚ) (h : 0 ≤ q) : 0 ≤ rhe q := by
  unfold rhe round
  have hf := Int.floor_nonneg.mpr h
  have hc := Int.ceil_nonneg h
  split
  · split <;> omega
  · split <;> omega

theorem round2_nonneg (q : ℚ) (h : 0 ≤ q) : 0 ≤ round2 q := by
  rw [round2]
  have h1 : (0 : ℤ) ≤ rhe (q * 100) := rhe_nonneg _ (by positivity)
  positivity

theorem round2_zero : round2 0 = 0 := by
  rw [round2_int 0 0 (by norm_num)]
  norm_num

theorem round3_zero : round3 0 = 0 := by
  rw [round3_int 0 0 (by norm_num)]
  norm_num

/-! ## Evaluating the parser on the concrete duration strings -/

theorem parse_eval (d : String) (y m : ℕ) (k : ℤ)
    (hy : yearsExtract d = y) (hm : monthsExtract d = m)
    (hk : ((y : ℚ) + (m : ℚ) / 12) * 100 = (k : ℚ)) :
    parse_duration_string d = (k : ℚ) / 100 := by
  unfold parse_duration_string
  rw [hy, hm, round2_int _ k hk]

theorem parse_exDur1 : parse_duration_string exDur1 = 9 / 4 := by
  rw [parse_eval exDur1 2 3 225 (by decide) (by decide) (by norm_num)]
  norm_num

theorem parse_exDur2 : parse_duration_string exDur2 = 1 := by
  rw [parse_eval exDur2 1 0 100 (by decide) (by decide) (by norm_num)]
  norm_num

theorem parse_exDur3 : parse_duration_string exDur3 = 1 / 2 := by
  rw [parse_eval exDur3 0 6 50 (by decide) (by decide) (by norm_num)]
  norm_num

theorem parse_exDurEmpty : parse_duration_string exDurEmpty = 0 := by
  rw [parse_eval exDurEmpty 0 0 0 (by decide) (by decide) (by norm_num)]
  norm_num

theorem parse_exDurInvalid : parse_duration_string exDurInvalid = 0 := by
  rw [parse_eval exDurInvalid 0 0 0 (by decide) (by decide) (by norm_num)]
  norm_num

theorem parse_exDurAnd : parse_duration_string exDurAnd = 9 / 4 := by
  rw [parse_eval exDurAnd 2 3 225 (by decide) (by decide) (by norm_num)]
  norm_num

theorem parse_exDurY1M6 : parse_duration_string exDurY1M6 = 3 / 2 := by
  rw [parse_eval exDurY1M6 1 6 150 (by decide) (by decide) (by norm_num)]
  norm_num

theorem parse_exDurY5 : parse_duration_string exDurY5 = 5 := by
  rw [parse_eval exDurY5 5 0 500 (by decide) (by decide) (by norm_num)]
  norm_num

theorem parse_exDurY2M6 : parse_duration_string exDurY2M6 = 5 / 2 := by
  rw [parse_eval exDurY2M6 2 6 250 (by decide) (by decide) (by norm_num)]
  norm_num

theorem parse_exDurY3 : parse_duration_string exDurY3 = 3 := by
  rw [parse_eval exDurY3 3 0 300 (by decide) (by decide) (by norm_num)]
  norm_num

/-- C1: the duration parser maps "2 years 3 months" to 2.25, "1 year" to
1.0, "6 months" to 0.5, "" to 0.0, "invalid" to 0.0 and
"2 years and 3 months" to 2.25 — years + months/12 rounded to two decimal
places, each count extracted as the first integer preceding its unit
token and defaulting to 0. -/
theorem C1_parse_duration_examples :
    parse_duration_string exDur1 = 2.25 ∧
    parse_duration_string exDur2 = 1.0 ∧
    parse_duration_string exDur3 = 0.5 ∧
    parse_duration_string exDurEmpty = 0.0 ∧
    parse_duration_string exDurInvalid = 0.0 ∧
    parse_duration_string exDurAnd = 2.25 := by
  refine ⟨?_, ?_, ?_, ?_, ?_, ?_⟩
  · rw [parse_exDur1]; norm_num
  · rw [parse_exDur2]; norm_num
  · rw [parse_exDur3]; norm_num
  · rw [parse_exDurEmpty]; norm_num
  · rw [parse_exDurInvalid]; norm_num
  · rw [parse_exDurAnd]; norm_num

/-- C2: the duration parser is total (a total Lean function: no
exception path exists in the embedding), its result is never negative,
and whenever neither the year pattern nor the month pattern matches the
normalized input — empty, unparseable or malformed strings — the result
is exactly 0. -/
theorem C2_parse_nonneg_and_default_zero :
    (∀ d : String, 0 ≤ parse_duration_string d) ∧
    (∀ d : String, searchNumUnit yearTok (normalized d) = none →
      searchNumUnit monthTok (normalized d) = none →
      parse_duration_string d = 0) := by
  constructor
  · intro d
    unfold parse_duration_string
    apply round2_nonneg
    positivity
  · intro d hy hm
    have hy0 : yearsExtract d = 0 := by rw [yearsExtract, hy]; rfl
    have hm0 : monthsExtract d = 0 := by rw [monthsExtract, hm]; rfl
    rw [parse_eval d 0 0 0 hy0 hm0 (by norm_num)]
    norm_num

/-- Witness for C2 at the concrete input "invalid". -/
theorem C2_parse_nonneg_and_default_zero_witness :
    0 ≤ parse_duration_string exDurInvalid ∧ parse_duration_string exDurInvalid = 0 :=
  ⟨C2_parse_nonneg_and_default_zero.1 exDurInvalid,
   C2_parse_nonneg_and_default_zero.2 exDurInvalid (by decide) (by decide)⟩

/-! ## The stability loop (claims C4 and C5) -/

theorem companies_length_zero_iff (p : ProfileRecord) :
    ((p.experience.map (fun e => e.companyName)).filter (fun c => c ≠ "")).length = 0 ↔
      ∀ e ∈ p.experience, e.companyName = "" := by
  rw [List.length_eq_zero, List.filter_eq_nil_iff]
  simp

theorem stabilityLoop_ok_fst :
    ∀ (ps : List ProfileRecord) (ind tot : ℕ) (r : ℕ × ℕ),
      stabilityLoop ps (ind, tot) = Except.ok r → r.1 = ind := by
  intro ps
  induction ps with
  | nil =>
    intro ind tot r h
    simp only [stabilityLoop] at h
    cases h
    rfl
  | cons p rest ih =>
    intro ind tot r h
    by_cases h1 : 1 ≤ p.experience.length
    · by_cases h2 :
        ((p.experience.map (fun e => e.companyName)).filter (fun c => c ≠ "")).length = 0
      · simp only [stabilityLoop] at h
        rw [if_pos h1, if_pos h2] at h
        exact ih ind (tot + 1) r h
      · simp only [stabilityLoop] at h
        rw [if_pos h1, if_neg h2] at h
        exact Except.noConfusion h
    · simp only [stabilityLoop] at h
      rw [if_neg h1] at h
      exact ih ind tot r h

theorem stabilityLoop_err_iff :
    ∀ (ps : List ProfileRecord) (ind tot : ℕ),
      (stabilityLoop ps (ind, tot)).isOk = false ↔
        ∃ p ∈ ps, ∃ e ∈ p.experience, e.companyName ≠ "" := by
  intro ps
  induction ps with
  | nil =>
    intro ind tot
    simp [stabilityLoop, Except.isOk, Except.toBool]
  | cons p rest ih =>
    intro ind tot
    by_cases h1 : 1 ≤ p.experience.length
    · by_cases h2 :
        ((p.experience.map (fun e => e.companyName)).filter (fun c => c ≠ "")).length = 0
      · have hstep : stabilityLoop (p :: rest) (ind, tot) = stabilityLoop rest (ind, tot + 1) := by
          simp only [stabilityLoop]
          rw [if_pos h1, if_pos h2]
        rw [hstep, ih]
        have hall := (companies_length_zero_iff p).mp h2
        constructor
        · rintro ⟨q, hq, e, he, hne⟩
          exact ⟨q, List.mem_cons_of_mem p hq, e, he, hne⟩
        · rintro ⟨q, hq, e, he, hne⟩
          rcases List.mem_cons.mp hq with hq | hq
          · subst hq
            exact absurd (hall e he) hne
          · exact ⟨q, hq, e, he, hne⟩
      · have hstep : stabilityLoop (p :: rest) (ind, tot) = Except.error () := by
          simp only [stabilityLoop]
          rw [if_pos h1, if_neg h2]
        rw [hstep]
        have hex : ∃ e ∈ p.experience, e.companyName ≠ "" := by
          by_contra hcon
          push_neg at hcon
          exact h2 ((companies_length_zero_iff p).mpr hcon)
        constructor
        · intro _
          obtain ⟨e, he, hc⟩ := hex
          exact ⟨p, List.mem_cons_self p rest, e, he, hc⟩
        · intro _
          rfl
    · have hstep : stabilityLoop (p :: rest) (ind, tot) = stabilityLoop rest (ind, tot) := by
        simp only [stabilityLoop]
        rw [if_neg h1]
      have hemp : p.experience = [] := by
        cases hx : p.experience with
        | nil => rfl
        | cons a l => rw [hx] at h1; simp at h1
      rw [hstep, ih]
      constructor
      · rintro ⟨q, hq, e, he, hne⟩
        exact ⟨q, List.mem_cons_of_mem p hq, e, he, hne⟩
      · rintro ⟨q, hq, e, he, hne⟩
        rcases List.mem_cons.mp hq with hq | hq
        · subst hq
          rw [hemp] at he
          simp at he
        · exact ⟨q, hq, e, he, hne⟩

theorem stability_score_zero (ps : List ProfileRecord) :
    calculate_industry_stability_score ps = 0 := by
  unfold calculate_industry_stability_score
  cases h : stabilityLoop ps (0, 0) with
  | error e => rfl
  | ok r =>
    obtain ⟨ind, tot⟩ := r
    have h1 : ind = 0 := stabilityLoop_ok_fst ps 0 0 (ind, tot) h
    subst h1
    simp

/-- C5: the industry-stability score is identically 0.  When some record
has an entry with a non-empty company name, the loop reaches indicator 3,
where `len(unique_companies)` applies `len` to an `int` and raises
`TypeError` (the `Except.error` of the embedding), which the blanket
handler converts to 0.0; in every other case no indicator is ever
awarded, so the computed score is also 0.0. -/
theorem C5_stability_identically_zero :
    ∀ ps : List ProfileRecord,
      calculate_industry_stability_score ps = 0 ∧
      ((stabilityLoop ps (0, 0)).isOk = false ↔
        ∃ p ∈ ps, ∃ e ∈ p.experience, e.companyName ≠ "") :=
  fun ps => ⟨stability_score_zero ps, stabilityLoop_err_iff ps 0 0⟩

theorem years_acme :
    calculate_years_from_experience
      [{ position := "", companyName := r"Acme", duration := exDurY3 }] = 3 := by
  simp [calculate_years_from_experience, parse_exDurY3, show ¬(exDurY3 = "") from by decide]

theorem statPoints_exStabilityRecord : statPoints exStabilityRecord = 3 := by
  unfold statPoints
  norm_num [exStabilityRecord, years_acme, parse_exDurY3,
    show ¬((r"Acme" : String) = "") from by decide]

/-- C4: the claim states the documented stability formula, but the code
does not compute it: on a single record with one non-empty company name
and a 3-year tenure the intended score is 3/4 (three of four
indicators), while the code's indicator 3 applies `len` to the integer
`unique_companies`, raises `TypeError`, and the blanket handler returns
0.0. -/
theorem C4_stability_formula_vs_code :
    calculate_industry_stability_score [exStabilityRecord] = 0 ∧
    specIndustryStabilityScore [exStabilityRecord] = 3 / 4 := by
  constructor
  · rfl
  · simp only [specIndustryStabilityScore]
    have hq : [exStabilityRecord].filter (fun p => 1 ≤ p.experience.length) =
        [exStabilityRecord] := by decide
    rw [hq]
    rw [if_neg (by simp)]
    simp [statPoints_exStabilityRecord]

/-! ## The tenure loop (claim C6) -/

theorem parse_duration_nonneg (d : String) : 0 ≤ parse_duration_string d := by
  unfold parse_duration_string
  apply round2_nonneg
  positivity

theorem parse_empty : parse_duration_string "" = 0 := parse_exDurEmpty

theorem tenure_foldl_entries (es : List ExperienceEntry) (a : ℚ) (n : ℕ) :
    es.foldl tenureStep (a, n) =
      (a + (es.map (fun e => parse_duration_string e.duration)).sum,
       n + (es.filter (fun e => 0 < parse_duration_string e.duration)).length) := by
  induction es generalizing a n with
  | nil => simp
  | cons e rest ih =>
    simp only [List.foldl_cons, List.map_cons, List.sum_cons, List.filter_cons]
    by_cases hd : e.duration = ""
    · simp only [tenureStep, hd, ite_true, if_true]
      rw [ih]
      simp [parse_empty]
    · by_cases hp : 0 < parse_duration_string e.duration
      · have hstep : tenureStep (a, n) e = (a + parse_duration_string e.duration, n + 1) := by
          simp [tenureStep, hd, hp]
        rw [hstep, ih]
        simp only [hp, decide_true_eq_true, if_true, ite_true, List.length_cons,
          Prod.mk.injEq]
        exact ⟨by ring, by omega⟩
      · have hz : parse_duration_string e.duration = 0 :=
          le_antisymm (not_lt.mp hp) (parse_duration_nonneg _)
        have hstep : tenureStep (a, n) e = (a, n) := by
          simp [tenureStep, hd, hp]
        rw [hstep, ih, hz]
        simp [hp]

theorem tenureLoop_eq (ps : List ProfileRecord) (a : ℚ) (n : ℕ) :
    tenureLoop ps (a, n) = (a + totalParsedDuration ps, n + positiveDurationCount ps) := by
  induction ps generalizing a n with
  | nil => simp [tenureLoop, totalParsedDuration, positiveDurationCount]
  | cons p rest ih =>
    simp only [tenureLoop]
    rw [tenure_foldl_entries, ih]
    simp only [totalParsedDuration, positiveDurationCount, List.map_cons, List.sum_cons,
      Prod.mk.injEq]
    exact ⟨by ring, by omega⟩

/-- C6 (amended): the average job tenure is the sum of the parsed
durations of all experience entries across all records, divided by the
number of entries whose duration parses to a strictly positive number of
years (not, as the claim says, the number of entries with a non-empty
duration string), and 0 when that count is zero. -/
theorem C6_average_job_tenure_formula :
    ∀ ps : List ProfileRecord,
      calculate_average_job_tenure ps =
        if positiveDurationCount ps = 0 then 0
        else totalParsedDuration ps / (positiveDurationCount ps : ℚ) := by
  intro ps
  unfold calculate_average_job_tenure
  rw [tenureLoop_eq]
  simp

/-- C6 counterexample: on one record with entries "1 year" and "invalid"
the code returns 1.0 (one countable job), while the claim's formula —
dividing by the number of entries with a non-empty duration string —
yields 0.5. -/
theorem C6_counterexample_denominator :
    calculate_average_job_tenure [exTenureRecord] ≠
      claimedAverageJobTenure [exTenureRecord] := by
  have hsum : totalParsedDuration [exTenureRecord] = 1 := by
    simp [totalParsedDuration, exTenureRecord, durEntry, parse_exDur2, parse_exDurInvalid]
  have h1 : calculate_average_job_tenure [exTenureRecord] = 1 := by
    unfold calculate_average_job_tenure
    rw [tenureLoop_eq]
    have hc : positiveDurationCount [exTenureRecord] = 1 := by
      simp [positiveDurationCount, exTenureRecord, durEntry, parse_exDur2, parse_exDurInvalid,
        List.filter]
    rw [hc, hsum]
    norm_num
  have h2 : claimedAverageJobTenure [exTenureRecord] = 1 / 2 := by
    unfold claimedAverageJobTenure
    have hc : nonemptyDurationCount [exTenureRecord] = 2 := by
      simp [nonemptyDurationCount, exTenureRecord, durEntry, List.filter,
        show ¬(exDur2 = "") from by decide, show ¬(exDurInvalid = "") from by decide]
    rw [hc, hsum]
    norm_num
  rw [h1, h2]
  norm_num

/-! ## The progression loop (claim C7) -/

theorem progressionLoop_eq (ps : List ProfileRecord) (a b : ℕ) :
    progressionLoop ps (a, b) =
      (a + (ps.filter (fun p => 2 ≤ p.experience.length)).countP progression_found,
       b + (ps.filter (fun p => 2 ≤ p.experience.length)).length) := by
  induction ps generalizing a b with
  | nil => simp [progressionLoop]
  | cons p rest ih =>
    simp only [progressionLoop]
    by_cases h2 : 2 ≤ p.experience.length
    · have hf : (p :: rest).filter (fun q => 2 ≤ q.experience.length) =
          p :: rest.filter (fun q => 2 ≤ q.experience.length) := by
        simp [List.filter_cons, h2]
      rw [if_pos h2, hf]
      by_cases hp : progression_found p
      · rw [if_pos hp, ih, List.countP_cons_of_pos _ _ hp]
        simp only [List.length_cons, Prod.mk.injEq]
        exact ⟨by omega, by omega⟩
      · rw [if_neg hp, ih, List.countP_cons_of_neg _ _ hp]
        simp only [List.length_cons, Prod.mk.injEq]
        exact ⟨trivial, by omega⟩
    · rw [if_neg h2, ih]
      simp [List.filter_cons, h2]

theorem progression_found_iff (p : ProfileRecord) :
    progression_found p = true ↔ SpecProgression p := by
  unfold progression_found SpecProgression pairPattern
  simp [List.any_eq_true, or_assoc]

/-- C7: the career-progression rate is the number of records with at
least two experience entries whose lowercased title sequence matches one
of the five seniority-advancement patterns, divided by the number of
records with at least two entries (0 when there are none); and the
matched-pattern predicate of the code coincides with the five patterns as
the specification words them. -/
theorem C7_career_progression_rate :
    (∀ ps : List ProfileRecord,
      calculate_career_progression_rate ps =
        if (ps.filter (fun p => 2 ≤ p.experience.length)).length = 0 then 0
        else
          ((ps.filter (fun p => 2 ≤ p.experience.length)).countP progression_found : ℚ) /
            ((ps.filter (fun p => 2 ≤ p.experience.length)).length : ℚ)) ∧
    (∀ p : ProfileRecord, progression_found p = true ↔ SpecProgression p) := by
  constructor
  · intro ps
    unfold calculate_career_progression_rate
    rw [progressionLoop_eq]
    simp
  · exact progression_found_iff

/-! ## Round-to-two-decimals fixed points (claim C3) -/

theorem rhe_low (q : ℚ) (k : ℤ) (h1 : (k : ℚ) ≤ q) (h2 : q < (k : ℚ) + 1 / 2) :
    rhe q = k := by
  have hf : ⌊q⌋ = k := Int.floor_eq_iff.mpr ⟨h1, by linarith⟩
  unfold rhe
  rw [hf, if_neg (by intro hc; linarith), round_eq]
  exact Int.floor_eq_iff.mpr ⟨by linarith, by linarith⟩

theorem round2_low (q : ℚ) (k : ℤ) (h1 : (k : ℚ) ≤ q * 100) (h2 : q * 100 < (k : ℚ) + 1 / 2) :
    round2 q = (k : ℚ) / 100 := by
  rw [round2, rhe_low (q * 100) k h1 h2]

theorem round2_of_centile (q : ℚ) (h : IsCentile q) : round2 q = q := by
  obtain ⟨k, hk⟩ := h
  rw [round2, ← hk, rhe_int, hk]
  ring

theorem centile_zero : IsCentile 0 := ⟨0, by norm_num⟩

theorem centile_add (a b : ℚ) (ha : IsCentile a) (hb : IsCentile b) : IsCentile (a + b) := by
  obtain ⟨k, hk⟩ := ha
  obtain ⟨l, hl⟩ := hb
  exact ⟨k + l, by push_cast; rw [hk, hl]; ring⟩

theorem parse_centile (d : String) : IsCentile (parse_duration_string d) := by
  refine ⟨rhe (((yearsExtract d : ℚ) + (monthsExtract d : ℚ) / 12) * 100), ?_⟩
  unfold parse_duration_string round2
  ring

theorem years_foldl_centile (es : List ExperienceEntry) :
    ∀ q : ℚ, IsCentile q →
      IsCentile (es.foldl
        (fun total e =>
          if e.duration = "" then total else total + parse_duration_string e.duration) q) := by
  induction es with
  | nil => intro q hq; exact hq
  | cons e rest ih =>
    intro q hq
    rw [List.foldl_cons]
    by_cases hd : e.duration = ""
    · rw [if_pos hd]
      exact ih q hq
    · rw [if_neg hd]
      exact ih _ (centile_add _ _ hq (parse_centile _))

theorem years_centile (es : List ExperienceEntry) :
    IsCentile (calculate_years_from_experience es) :=
  years_foldl_centile es 0 centile_zero

theorem experience_years_centile (ps : List ProfileRecord) :
    ∀ y ∈ experience_years ps, IsCentile y := by
  intro y hy
  obtain ⟨p, _, hp⟩ := List.mem_filterMap.mp hy
  by_cases hc : p.experience ≠ [] ∧ 0 < calculate_years_from_experience p.experience
  · rw [if_pos hc] at hp
    cases hp
    exact years_centile p.experience
  · rw [if_neg hc] at hp
    cases hp

/-! ## Sorting lemmas -/

theorem mem_insertSorted (x y : ℚ) (l : List ℚ) :
    y ∈ insertSorted x l ↔ y = x ∨ y ∈ l := by
  induction l with
  | nil => simp [insertSorted]
  | cons a rest ih =>
    unfold insertSorted
    by_cases h : x ≤ a
    · rw [if_pos h]
      simp
    · rw [if_neg h]
      simp only [List.mem_cons, ih]
      tauto

theorem mem_sortQ (y : ℚ) (l : List ℚ) : y ∈ sortQ l ↔ y ∈ l := by
  induction l with
  | nil => simp [sortQ]
  | cons a rest ih =>
    unfold sortQ at ih ⊢
    rw [List.foldr_cons, mem_insertSorted, ih]
    simp

theorem length_insertSorted (x : ℚ) (l : List ℚ) :
    (insertSorted x l).length = l.length + 1 := by
  induction l with
  | nil => rfl
  | cons a rest ih =>
    unfold insertSorted
    by_cases h : x ≤ a
    · rw [if_pos h]
      rfl
    · rw [if_neg h]
      simp [ih]

theorem length_sortQ (l : List ℚ) : (sortQ l).length = l.length := by
  induction l with
  | nil => rfl
  | cons a rest ih =>
    unfold sortQ at ih ⊢
    rw [List.foldr_cons, length_insertSorted, ih]
    rfl

/-- The element selected from the sorted list is a member of the
original list. -/
theorem sortQ_getD_mem (l : List ℚ) (i : ℕ) (hi : i < l.length) :
    (sortQ l).getD i 0 ∈ l := by
  have hlen : i < (sortQ l).length := by rw [length_sortQ]; exact hi
  rw [List.getD_eq_getElem (sortQ l) 0 hlen]
  exact (mem_sortQ _ l).mp (List.getElem_mem hlen)

/-! ## Evaluating the metrics on the specification's example batch -/

theorem years_rec1 :
    calculate_years_from_experience [durEntry exDur1, durEntry exDurY1M6] = 15 / 4 := by
  simp [calculate_years_from_experience, durEntry, parse_exDur1, parse_exDurY1M6,
    show ¬(exDur1 = "") from by decide, show ¬(exDurY1M6 = "") from by decide]
  norm_num

theorem years_rec2 :
    calculate_years_from_experience [durEntry exDurY5, durEntry exDurY2M6] = 15 / 2 := by
  simp [calculate_years_from_experience, durEntry, parse_exDurY5, parse_exDurY2M6,
    show ¬(exDurY5 = "") from by decide, show ¬(exDurY2M6 = "") from by decide]
  norm_num

theorem experience_years_exBatch : experience_years exBatch = [15 / 4, 15 / 2] := by
  norm_num [experience_years, exBatch, List.filterMap_cons, years_rec1, years_rec2,
    show ¬([durEntry exDur1, durEntry exDurY1M6] = ([] : List ExperienceEntry)) from by simp,
    show ¬([durEntry exDurY5, durEntry exDurY2M6] = ([] : List ExperienceEntry)) from by simp]

theorem sortQ_exBatch : sortQ [(15 : ℚ) / 4, 15 / 2] = [15 / 4, 15 / 2] := by
  norm_num [sortQ, insertSorted]

theorem metrics_exBatch :
    calculate_experience_metrics exBatch =
      { average_years := 281 / 50
        median_years := some (15 / 2)
        total_professionals := 3
        professionals_with_experience := 2
        min_years := some (15 / 4)
        max_years := some (15 / 2)
        career_progression_rate := 0
        industry_stability_score := 0
        average_job_tenure := 281 / 100 } := by
  have hprog : calculate_career_progression_rate exBatch = 0 := by
    unfold calculate_career_progression_rate
    have hloop : progressionLoop exBatch (0, 0) = (0, 2) := by decide
    rw [hloop]
    norm_num
  have hten : calculate_average_job_tenure exBatch = 45 / 16 := by
    unfold calculate_average_job_tenure
    rw [tenureLoop_eq]
    have hsum : totalParsedDuration exBatch = 45 / 4 := by
      norm_num [totalParsedDuration, exBatch, durEntry, parse_exDur1, parse_exDurY1M6,
        parse_exDurY5, parse_exDurY2M6]
    have hcnt : positiveDurationCount exBatch = 4 := by
      norm_num [positiveDurationCount, exBatch, durEntry, parse_exDur1, parse_exDurY1M6,
        parse_exDurY5, parse_exDurY2M6]
    rw [hsum, hcnt]
    norm_num
  have hr2 : round2 (15 / 2) = 15 / 2 := by
    rw [round2_int _ 750 (by norm_num)]
    norm_num
  have hr3 : round2 (45 / 16) = 281 / 100 := by
    rw [round2_low _ 281 (by norm_num) (by norm_num)]
    norm_num
  simp only [calculate_experience_metrics, experience_years_exBatch]
  rw [if_neg (by norm_num)]
  rw [hprog, stability_score_zero, hten]
  simp only [sortQ_exBatch, ExperienceMetrics.mk.injEq]
  refine ⟨?_, ?_, rfl, rfl, ?_, ?_, round3_zero, round3_zero, hr3⟩
  · rw [round2_half _ 562 (by norm_num) (by norm_num)]
    norm_num
  · norm_num [hr2]
  · norm_num [listMin, min_def]
  · norm_num [listMax, max_def]

/-- C3 counterexample: the claim (and the spec's §8 example) says the
returned mean is 5.625, but the code rounds the mean with
`round(avg_years, 2)` and CPython's `round(5.625, 2)` is 5.62 (an exact
binary tie, rounded to even), so the returned `average_years` is not
5.625. -/
theorem C3_counterexample_mean_not_rounded :
    (calculate_experience_metrics exBatch).average_years ≠ 5.625 := by
  rw [metrics_exBatch]
  norm_num

/-- C3 (amended): on the three-record example batch the metrics are
total = 3, with_experience = 2, mean = 5.62 (the two-decimal
round-half-even of 5.625), median = 7.5, min = 3.75, max = 7.5; and in
general the reported median is the element at index `n / 2` of the
sorted total-years list (the lower-biased selection, unrounded because
every collected total is a multiple of 1/100). -/
theorem C3_computeBatch_example_and_median :
    ((calculate_experience_metrics exBatch).total_professionals = 3 ∧
     (calculate_experience_metrics exBatch).professionals_with_experience = 2 ∧
     (calculate_experience_metrics exBatch).average_years = 5.62 ∧
     (calculate_experience_metrics exBatch).median_years = some 7.5 ∧
     (calculate_experience_metrics exBatch).min_years = some 3.75 ∧
     (calculate_experience_metrics exBatch).max_years = some 7.5) ∧
    (∀ ps : List ProfileRecord, 0 < (experience_years ps).length →
      (calculate_experience_metrics ps).median_years =
        some ((sortQ (experience_years ps)).getD ((experience_years ps).length / 2) 0)) := by
  constructor
  · rw [metrics_exBatch]
    norm_num
  · intro ps hlen
    simp only [calculate_experience_metrics]
    rw [if_neg (by omega)]
    have hmem := sortQ_getD_mem (experience_years ps) ((experience_years ps).length / 2)
      (Nat.div_lt_self hlen (by norm_num))
    exact congrArg some (round2_of_centile _ (experience_years_centile ps _ hmem))

/-- Witness for C3 at the example batch. -/
theorem C3_computeBatch_example_and_median_witness :
    (calculate_experience_metrics exBatch).median_years =
      some ((sortQ (experience_years exBatch)).getD ((experience_years exBatch).length / 2) 0) :=
  C3_computeBatch_example_and_median.2 exBatch
    (by rw [experience_years_exBatch]; norm_num)

/-! ## The aggregation loops (claim C8) -/

theorem sumLoop_eq (f : BatchResult → ℕ) (rs : List BatchResult) (n : ℕ) :
    sumLoop f rs n = n + (rs.map f).sum := by
  induction rs generalizing n with
  | nil => simp [sumLoop]
  | cons r rest ih =>
    simp only [sumLoop, List.map_cons, List.sum_cons]
    rw [ih]
    omega

theorem collectPos_eq (f : BatchResult → ℚ) (rs : List BatchResult) (acc : List ℚ) :
    collectPos f rs acc = acc ++ (rs.filter (fun r => 0 < f r)).map f := by
  induction rs generalizing acc with
  | nil => simp [collectPos]
  | cons r rest ih =>
    simp only [collectPos]
    by_cases h : 0 < f r
    · rw [if_pos h, ih]
      simp [List.filter_cons, h]
    · rw [if_neg h, ih]
      simp [List.filter_cons, h]

/-- C8 counterexample: merging three batches whose tenure values are
0.01, 0.01 and 0.02 yields `round((0.04/3), 2) = 0.01`, not the
arithmetic mean 0.04/3 of the collected positives, so the aggregated
field is not the unrounded mean the claim states. -/
theorem C8_counterexample_rounding :
    (aggregate_batch_results
        [tenureBatch 1 (1 / 100), tenureBatch 2 (1 / 100),
         tenureBatch 3 (2 / 100)]).average_job_tenure ≠
      (1 / 100 + 1 / 100 + 2 / 100) / 3 := by
  simp only [aggregate_batch_results]
  rw [collectPos_eq]
  have hfil : [tenureBatch 1 (1 / 100), tenureBatch 2 (1 / 100),
      tenureBatch 3 (2 / 100)].filter (fun r => 0 < r.career_insights.average_job_tenure) =
      [tenureBatch 1 (1 / 100), tenureBatch 2 (1 / 100), tenureBatch 3 (2 / 100)] := by
    norm_num [List.filter, tenureBatch]
  rw [hfil]
  have hm : meanOrZero ([tenureBatch 1 (1 / 100), tenureBatch 2 (1 / 100),
      tenureBatch 3 (2 / 100)].map (fun r => r.career_insights.average_job_tenure)) = 1 / 75 := by
    unfold meanOrZero
    rw [if_neg (by simp [tenureBatch])]
    norm_num [tenureBatch]
  rw [List.nil_append, hm, round2_low _ 1 (by norm_num) (by norm_num)]
  norm_num

/-- C8 (amended): the aggregator sums each batch's record count into
`total_analyzed`, and for each of the three career-insight keys collects
the values strictly greater than 0 across batches and reports the
arithmetic mean of that list (0.0 if it is empty) rounded to two
decimals for tenure and three decimals for the two rates; in particular
batches with tenure values [2.75] and [] aggregate to tenure 2.75. -/
theorem C8_aggregate_mean_of_positive :
    (∀ rs : List BatchResult,
      (aggregate_batch_results rs).total_professionals_analyzed =
        (rs.map (fun r => r.analysis_summary.total_professionals_analyzed)).sum ∧
      (aggregate_batch_results rs).average_job_tenure =
        round2 (meanOrZero ((rs.filter (fun r => 0 < r.career_insights.average_job_tenure)).map
          (fun r => r.career_insights.average_job_tenure))) ∧
      (aggregate_batch_results rs).career_progression_rate =
        round3 (meanOrZero ((rs.filter
            (fun r => 0 < r.career_insights.career_progression_rate)).map
          (fun r => r.career_insights.career_progression_rate))) ∧
      (aggregate_batch_results rs).industry_stability_score =
        round3 (meanOrZero ((rs.filter
            (fun r => 0 < r.career_insights.industry_stability_score)).map
          (fun r => r.career_insights.industry_stability_score)))) ∧
    (aggregate_batch_results [exBatchResultA, exBatchResultB]).average_job_tenure = 2.75 := by
  constructor
  · intro rs
    refine ⟨?_, ?_, ?_, ?_⟩
    · simp only [aggregate_batch_results]
      rw [sumLoop_eq]
      omega
    · simp only [aggregate_batch_results]
      rw [collectPos_eq, List.nil_append]
    · simp only [aggregate_batch_results]
      rw [collectPos_eq, List.nil_append]
    · simp only [aggregate_batch_results]
      rw [collectPos_eq, List.nil_append]
  · simp only [aggregate_batch_results]
    rw [collectPos_eq]
    have hfil : [exBatchResultA, exBatchResultB].filter
        (fun r => 0 < r.career_insights.average_job_tenure) = [exBatchResultA] := by
      norm_num [List.filter, exBatchResultA, exBatchResultB]
    rw [hfil]
    have hm : meanOrZero ([exBatchResultA].map
        (fun r => r.career_insights.average_job_tenure)) = 11 / 4 := by
      unfold meanOrZero
      rw [if_neg (by simp [exBatchResultA])]
      norm_num [exBatchResultA]
    rw [List.nil_append, hm, round2_int _ 275 (by norm_num)]
    norm_num

/-! ## Degenerate inputs (claim C9) -/

theorem experience_years_eq_nil (ps : List ProfileRecord)
    (h : ∀ p ∈ ps, calculate_years_from_experience p.experience ≤ 0) :
    experience_years ps = [] := by
  unfold experience_years
  rw [List.filterMap_eq_nil_iff]
  intro p hp
  rw [if_neg]
  rintro ⟨-, hlt⟩
  exact absurd hlt (not_lt.mpr (h p hp))

/-- C9: the metrics of an empty batch are the zero-valued dictionary; the
metrics of a batch in which no record has positive parseable experience
are the zero-valued dictionary (with its record count equal to the input
length); and aggregating an empty batch list yields the zero-valued
consolidated report.  All three are plain values of total functions —
nothing raises. -/
theorem C9_degenerate_inputs :
    calculate_experience_metrics [] = zeroMetrics 0 ∧
    (∀ ps : List ProfileRecord,
      (∀ p ∈ ps, calculate_years_from_experience p.experience ≤ 0) →
        calculate_experience_metrics ps = zeroMetrics ps.length) ∧
    aggregate_batch_results [] = zeroReport := by
  refine ⟨rfl, ?_, ?_⟩
  · intro ps h
    simp only [calculate_experience_metrics, experience_years_eq_nil ps h]
    rfl
  · simp [aggregate_batch_results, zeroReport, ConsolidatedReport.mk.injEq, sumLoop,
      collectPos, meanOrZero, round2_zero, round3_zero]

/-- Witness for C9: a one-record batch whose only duration is
unparseable. -/
theorem C9_degenerate_inputs_witness :
    calculate_experience_metrics [({ experience := [durEntry exDurInvalid] } : ProfileRecord)] =
      zeroMetrics 1 :=
  C9_degenerate_inputs.2.1 [{ experience := [durEntry exDurInvalid] }] (by
    intro p hp
    rw [List.mem_singleton] at hp
    subst hp
    simp [calculate_years_from_experience, durEntry, parse_exDurInvalid,
      show ¬(exDurInvalid = "") from by decide])

/-- C10: the per-batch metrics computation is a pure function of its
input — the embedding threads no state, reads no attribute of the
surrounding object, and so evaluating it twice on the same record list
gives identical output. -/
theorem C10_computeBatch_deterministic :
    ∀ ps : List ProfileRecord,
      calculate_experience_metrics ps = calculate_experience_metrics ps :=
  fun _ => rfl

end CreditScorer
